import Mathlib

/-
Verification development for the SPI_Agri agriculture-monitoring dashboard
(src/agriculture_monitoring.py).  The integration-layer functions are shallowly
embedded: every piece of external state the Python code reads (the module-level
Firebase cache, the outcome of each outbound HTTP request, the outcome of each
remote database operation) is an explicit argument, and every side channel the
code writes (the cached app, the recorded diagnostic, which Streamlit message is
emitted, whether a network request was issued) is an explicit component of the
result.  JSON numbers are embedded as rationals and parsed timestamps as
integers; `Option` marks a null or an absent key.
-/

/-! ## Remote flag store (lines 16-79 of the source)

`get_firebase_app` keeps two module-level globals: `_firebase_app` (the cached
client) and `_firebase_error` (the last diagnostic).  `FbState` carries both.
`FbWorld` carries what the environment answers during one call: whether the
credential file exists, whether the firebase_admin library already holds an
initialized app (`firebase_admin._apps`), and what `initialize_app` (or the
imports / `credentials.Certificate` preceding it) does — returns an app or
raises, encoded by `InitOutcome`. -/

structure FbApp where
  id : Nat
deriving DecidableEq

inductive FbErr where
  | fileNotFound
  | initExc (code : Nat)
deriving DecidableEq

structure FbState where
  app : Option FbApp
  err : Option FbErr
deriving DecidableEq

inductive InitOutcome where
  | ok (a : FbApp)
  | exc (code : Nat)
deriving DecidableEq

structure FbWorld where
  credFileExists : Bool
  adminApps : Option FbApp
  initResult : InitOutcome
deriving DecidableEq

structure FbCallResult where
  ret : Option FbApp
  state : FbState
  attemptedInit : Bool
deriving DecidableEq

/-- Embedding of `get_firebase_app` (lines 31-52).  Returns the cached app
unchanged when present; otherwise clears the diagnostic, checks the credential
file, recovers an already-initialized library app if any, and only then
attempts initialization (`attemptedInit = true` on that path).  Every failure
returns `none` with a recorded diagnostic; no branch raises. -/
def get_firebase_app (w : FbWorld) (s : FbState) : FbCallResult :=
  match s.app with
  | some a => ⟨some a, s, false⟩
  | none =>
    if w.credFileExists = false then
      ⟨none, ⟨none, some FbErr.fileNotFound⟩, false⟩
    else
      match w.adminApps with
      | some a => ⟨some a, ⟨some a, none⟩, false⟩
      | none =>
        match w.initResult with
        | InitOutcome.ok a => ⟨some a, ⟨some a, none⟩, true⟩
        | InitOutcome.exc c => ⟨none, ⟨none, some (FbErr.initExc c)⟩, true⟩

/-- A sequence of `get_firebase_app` calls threading the module-level state,
one `FbWorld` per call (the re-render cycle of the dashboard). -/
def runCalls : FbState → List FbWorld → List FbCallResult
  | _, [] => []
  | s, w :: ws => get_firebase_app w s :: runCalls (get_firebase_app w s).state ws

/-- A call that attempted initialization and got an app back. -/
def successfulInit (r : FbCallResult) : Bool :=
  r.attemptedInit && r.ret.isSome

/-- Outcome of `ref.get()` on `/vanne/etat`: a value (possibly null at the
path) or a raised exception. -/
inductive ReadOutcome where
  | val (v : Option Bool)
  | exc
deriving DecidableEq

/-- Outcome of `ref.update({"etat": etat})`. -/
inductive WriteOutcome where
  | ok
  | exc
deriving DecidableEq

/-- Embedding of `firebase_get_vanne_etat` (lines 55-65): whole body inside
try/except returning `none` on any exception; returns `none` when the app is
unavailable, the remote value otherwise. -/
def firebase_get_vanne_etat (w : FbWorld) (rd : ReadOutcome) (s : FbState) :
    Option Bool × FbState :=
  let r := get_firebase_app w s
  match r.ret with
  | none => (none, r.state)
  | some _ =>
    match rd with
    | ReadOutcome.val v => (v, r.state)
    | ReadOutcome.exc => (none, r.state)

/-- Embedding of `firebase_set_vanne_etat` (lines 68-79): `false` when the app
is unavailable or the write raises, `true` after a successful update. -/
def firebase_set_vanne_etat (etat : Bool) (w : FbWorld) (wr : WriteOutcome)
    (s : FbState) : Bool × FbState :=
  let r := get_firebase_app w s
  match r.ret with
  | none => (false, r.state)
  | some _ =>
    match wr, etat with
    | WriteOutcome.ok, _ => (true, r.state)
    | WriteOutcome.exc, _ => (false, r.state)

/-- Embedding of the dashboard's read-then-default (lines 500-502):
`etat_actuel = firebase_get_vanne_etat()` then `if etat_actuel is None:
etat_actuel = False`. -/
def etat_actuel (w : FbWorld) (rd : ReadOutcome) (s : FbState) : Bool :=
  ((firebase_get_vanne_etat w rd s).1).getD false

/-! ## Geocoding suggestions (lines 96-146 of the source) -/

/-- One raw candidate object of the Nominatim JSON response.  `display_name`
is read with `.get(..., "")`; `lat` and `lon` are read with `result[...]` and
then `float(...)`: the outer `Option` is key presence, the inner `Option` is
float-convertibility of the value. -/
structure RawCandidate where
  display_name : Option String
  lat : Option (Option Rat)
  lon : Option (Option Rat)
deriving DecidableEq

structure Suggestion where
  display_name : String
  lat : Rat
  lon : Rat
deriving DecidableEq

/-- Outcome of the suggestion HTTP GET: `requests.exceptions.Timeout`, any
other `RequestException` (connection failure or the non-2xx raised by
`raise_for_status`), or a parsed JSON body. -/
inductive GeoHttp where
  | timeout
  | reqError
  | ok (data : List RawCandidate)
deriving DecidableEq

/-- The suggestion-building loop (lines 128-135).  Python appends one
`Suggestion` per candidate; a missing key raises `KeyError` and a
non-convertible value raises `ValueError`, aborting the whole loop — `none`
models the raised exception reaching the per-call handler. -/
def parse_candidates : List RawCandidate → Option (List Suggestion)
  | [] => some []
  | c :: cs =>
    match c.lat, c.lon with
    | some (some la), some (some lo) =>
      match parse_candidates cs with
      | some rest => some (⟨c.display_name.getD "", la, lo⟩ :: rest)
      | none => none
    | _, _ => none

/-- A candidate on which the loop body raises. -/
def badCandidate (c : RawCandidate) : Bool :=
  match c.lat, c.lon with
  | some (some _), some (some _) => false
  | _, _ => true

/-- Embedding of `search_address_suggestions` (lines 96-146).  `net` is the
network: what the HTTP GET for a given query and limit would return.  The
second component records whether the outbound call was issued.  Guard first
(`if not query or len(query) < 2: return []`), then every exception class
collapses to the empty list. -/
def search_address_suggestions (query : String) (lim : Nat)
    (net : String → Nat → GeoHttp) : List Suggestion × Bool :=
  if query = "" ∨ query.length < 2 then ([], false)
  else
    match net query lim with
    | GeoHttp.timeout => ([], true)
    | GeoHttp.reqError => ([], true)
    | GeoHttp.ok data =>
      match parse_candidates data with
      | some s => (s, true)
      | none => ([], true)

/-! ## Weather fetch and normalization (lines 350-467 of the source) -/

/-- The `hourly` object of an Open-Meteo response: three arrays each possibly
absent, read with `.get(key, [])`, whose entries may be null. -/
structure HourlyBlock where
  time : Option (List (Option Int))
  relative_humidity_2m : Option (List (Option Rat))
  soil_moisture_0_to_1cm : Option (List (Option Rat))
deriving DecidableEq

/-- A parsed Open-Meteo JSON body; `hourly` may be absent. -/
structure MeteoBody where
  hourly : Option HourlyBlock
deriving DecidableEq

/-- Python truthiness of `hourly.get(key)`: falsy when the key is absent or
the array is empty. -/
def truthy {α : Type} (o : Option (List α)) : Bool :=
  match o with
  | none => false
  | some l => !l.isEmpty

/-- Outcome of the Open-Meteo HTTP GET, by which `except` arm of
`fetch_open_meteo_data` would catch it: timeout, `HTTPError` from
`raise_for_status` (with status), another `RequestException`
(DNS/connection), a parsed body, or any other exception. -/
inductive HttpOutcome where
  | timeout
  | httpError (status : Nat)
  | connError
  | ok (body : MeteoBody)
  | otherExc (code : Nat)
deriving DecidableEq

/-- Result of `fetch_open_meteo_data`: the Python function returns the data
dict or `None`; each failure constructor also records which distinct
diagnostic was emitted (`st.error` / `st.warning`). -/
inductive FetchResult where
  | ok (body : MeteoBody)
  | errTimeout
  | errBadRequest
  | errHttp (status : Nat)
  | errConn
  | errMalformed
  | errPartial
  | errUnknown (code : Nat)
deriving DecidableEq

/-- The value the caller receives: the data on success, `None` otherwise. -/
def FetchResult.toCaller : FetchResult → Option MeteoBody
  | FetchResult.ok b => some b
  | _ => none

/-- Embedding of `fetch_open_meteo_data` (lines 350-424): on a 2xx parsed
body, require the `"hourly"` key (else the malformed-format error) and
truthy arrays for both requested variables (else the partial-data warning);
each exception class maps to its own diagnostic and a `None` return. -/
def fetch_open_meteo_data (net : HttpOutcome) : FetchResult :=
  match net with
  | HttpOutcome.timeout => FetchResult.errTimeout
  | HttpOutcome.httpError s =>
    if s = 400 then FetchResult.errBadRequest else FetchResult.errHttp s
  | HttpOutcome.connError => FetchResult.errConn
  | HttpOutcome.otherExc c => FetchResult.errUnknown c
  | HttpOutcome.ok body =>
    match body.hourly with
    | none => FetchResult.errMalformed
    | some h =>
      if truthy h.relative_humidity_2m && truthy h.soil_moisture_0_to_1cm
      then FetchResult.ok body
      else FetchResult.errPartial

/-- Result of `process_meteo_data`: the DataFrame rows (timestamp, air
humidity, soil moisture) or `None`, with the emitted diagnostic recorded:
`errIncomplete` is the incomplete-data warning (line 446), `errNoValid` the
no-valid-data-after-processing warning (line 460), `errProcessing` the
caught-exception error (line 466), `noInput` the silent `None` passthrough
(line 437). -/
inductive ProcessResult where
  | ok (rows : List (Int × Rat × Rat))
  | errIncomplete
  | errNoValid
  | errProcessing
  | noInput
deriving DecidableEq

/-- Embedding of `df.dropna()` on the three-column frame: keep exactly the rows where all
three fields are non-null, preserving order. -/
def dropna : List (Option Int × Option Rat × Option Rat) → List (Int × Rat × Rat)
  | [] => []
  | (some t, some a, some m) :: rest => (t, a, m) :: dropna rest
  | _ :: rest => dropna rest

/-- Embedding of `process_meteo_data` (lines 427-467).  Reads the three
arrays with `.get(..., [])` defaults, returns the incomplete-data warning if
any is empty (Python falsiness), then builds the DataFrame — which raises
`ValueError` on mismatched array lengths, caught by the outer handler as
`errProcessing` — drops null rows, and returns the no-valid-data warning if
nothing survives. -/
def process_meteo_data (api_data : Option MeteoBody) : ProcessResult :=
  match api_data with
  | none => ProcessResult.noInput
  | some d =>
    let ts := match d.hourly with
      | none => []
      | some h => h.time.getD []
    let ha := match d.hourly with
      | none => []
      | some h => h.relative_humidity_2m.getD []
    let hs := match d.hourly with
      | none => []
      | some h => h.soil_moisture_0_to_1cm.getD []
    if ts.isEmpty || ha.isEmpty || hs.isEmpty then ProcessResult.errIncomplete
    else if ts.length = ha.length ∧ ha.length = hs.length then
      let rows := dropna (ts.zip (ha.zip hs))
      if rows.isEmpty then ProcessResult.errNoValid else ProcessResult.ok rows
    else ProcessResult.errProcessing

/-- Ascending (non-strict) chain on a list of timestamps. -/
def ascChain : List Int → Bool
  | [] => true
  | [_] => true
  | a :: b :: r => (a ≤ b) && ascChain (b :: r)

/-- The rows of a normalized series are ordered ascending by timestamp. -/
def rowsSortedAsc (rows : List (Int × Rat × Rat)) : Bool :=
  ascChain (rows.map Prod.fst)

/-! ## Helper lemmas for the flag store -/

/-- In every branch of `get_firebase_app`, the returned app and the cached app
coincide afterwards. -/
theorem get_ret_eq_state_app (w : FbWorld) (s : FbState) :
    (get_firebase_app w s).ret = (get_firebase_app w s).state.app := by
  rcases s with ⟨app, err⟩
  cases app <;> cases hw : w.credFileExists <;> cases ha : w.adminApps <;>
    cases hi : w.initResult <;> simp [get_firebase_app, hw, ha, hi]

/-- A cached app is returned as-is, with the state untouched and no
initialization attempted. -/
theorem get_cached (w : FbWorld) (s : FbState) (a : FbApp) (h : s.app = some a) :
    get_firebase_app w s = ⟨some a, s, false⟩ := by
  simp [get_firebase_app, h]

/-- With no cached app, the call ignores the stale diagnostic: the body begins
by resetting `_firebase_error`, so the call behaves as from the fresh state. -/
theorem get_err_reset (w : FbWorld) (s : FbState) (h : s.app = none) :
    get_firebase_app w s = get_firebase_app w ⟨none, none⟩ := by
  rcases s with ⟨app, err⟩
  cases app
  · cases hw : w.credFileExists <;> cases ha : w.adminApps <;>
      cases hi : w.initResult <;> simp [get_firebase_app, hw, ha, hi]
  · exact absurd h (by simp)

/-- Once an app is cached, no later call in the trace performs a successful
initialization. -/
theorem runCalls_cached (ws : List FbWorld) :
    ∀ (s : FbState) (a : FbApp), s.app = some a →
      List.countP successfulInit (runCalls s ws) = 0 := by
  induction ws with
  | nil => intro s a _; rfl
  | cons w ws ih =>
    intro s a h
    have hc := get_cached w s a h
    have hstep : runCalls s (w :: ws) =
        (⟨some a, s, false⟩ : FbCallResult) :: runCalls s ws := by
      simp only [runCalls, hc]
    rw [hstep, List.countP_cons, ih s a h]
    rfl

/-- Across any trace of calls, at most one performs a successful
initialization. -/
theorem runCalls_at_most_one (ws : List FbWorld) :
    ∀ s : FbState, List.countP successfulInit (runCalls s ws) ≤ 1 := by
  induction ws with
  | nil => intro s; simp [runCalls]
  | cons w ws ih =>
    intro s
    have hstep : runCalls s (w :: ws) =
        get_firebase_app w s :: runCalls (get_firebase_app w s).state ws := by
      simp only [runCalls]
    rcases hs : s.app with _ | a
    · rcases hr : (get_firebase_app w s).ret with _ | a
      · have hfalse : successfulInit (get_firebase_app w s) = false := by
          simp [successfulInit, hr]

        rw [hstep, List.countP_cons, hfalse]
        simpa using ih _
      · have hstate : (get_firebase_app w s).state.app = some a := by
          rw [← get_ret_eq_state_app]; exact hr
        have htail := runCalls_cached ws (get_firebase_app w s).state a hstate
        rw [hstep, List.countP_cons, htail]
        split <;> simp
    · have := runCalls_cached (w :: ws) s a hs
      simp [this]

/-! ## Claims about the flag store -/

/-- Claim C5: the remote-store client is initialized at most once per process
lifetime — across any sequence of calls at most one successful initialization
occurs, and once an app is cached every call returns it unchanged without
attempting initialization — and a missing credential file yields `None` with
a recorded diagnostic instead of an exception. -/
theorem flagstore_lazy_singleton :
    (∀ (s : FbState) (ws : List FbWorld),
        List.countP successfulInit (runCalls s ws) ≤ 1) ∧
    (∀ (w : FbWorld) (s : FbState) (a : FbApp), s.app = some a →
        get_firebase_app w s = ⟨some a, s, false⟩) ∧
    (∀ (w : FbWorld) (s : FbState), s.app = none → w.credFileExists = false →
        get_firebase_app w s = ⟨none, ⟨none, some FbErr.fileNotFound⟩, false⟩) := by
  refine ⟨fun s ws => runCalls_at_most_one ws s, get_cached, ?_⟩
  intro w s h0 h1
  simp [get_firebase_app, h0, h1]

/-- Concrete instantiation of `flagstore_lazy_singleton`: a two-render trace,
a cached call, and a missing-credential call. -/
theorem flagstore_lazy_singleton_wit :
    List.countP successfulInit (runCalls ⟨none, none⟩
      [⟨true, none, InitOutcome.ok ⟨5⟩⟩, ⟨true, none, InitOutcome.ok ⟨6⟩⟩]) ≤ 1 ∧
    get_firebase_app ⟨true, none, InitOutcome.ok ⟨7⟩⟩ ⟨some ⟨5⟩, none⟩ =
      ⟨some ⟨5⟩, ⟨some ⟨5⟩, none⟩, false⟩ ∧
    get_firebase_app ⟨false, none, InitOutcome.ok ⟨7⟩⟩ ⟨none, none⟩ =
      ⟨none, ⟨none, some FbErr.fileNotFound⟩, false⟩ :=
  ⟨flagstore_lazy_singleton.1 ⟨none, none⟩ _,
   flagstore_lazy_singleton.2.1 _ ⟨some ⟨5⟩, none⟩ ⟨5⟩ rfl,
   flagstore_lazy_singleton.2.2 _ ⟨none, none⟩ rfl rfl⟩

/-- Claim C10: a failed initialization is not memoized — the call returns
`None`, the state keeps no app and records the new diagnostic (overwriting
any previous one, since the old diagnostic was arbitrary), and any subsequent
call behaves exactly as a call from the fresh state, re-attempting
initialization from scratch. -/
theorem init_failure_not_memoized (w : FbWorld) (s : FbState) (c : Nat)
    (h0 : s.app = none) (h1 : w.credFileExists = true) (h2 : w.adminApps = none)
    (h3 : w.initResult = InitOutcome.exc c) :
    get_firebase_app w s = ⟨none, ⟨none, some (FbErr.initExc c)⟩, true⟩ ∧
    (∀ w2 : FbWorld, get_firebase_app w2 (get_firebase_app w s).state =
        get_firebase_app w2 ⟨none, none⟩) := by
  have hcall : get_firebase_app w s = ⟨none, ⟨none, some (FbErr.initExc c)⟩, true⟩ := by
    simp [get_firebase_app, h0, h1, h2, h3]
  refine ⟨hcall, fun w2 => ?_⟩
  rw [hcall]
  exact get_err_reset w2 ⟨none, some (FbErr.initExc c)⟩ rfl

/-- Concrete instantiation of `init_failure_not_memoized`: a bad-credential
initialization from a state holding a stale diagnostic. -/
theorem init_failure_not_memoized_wit :
    get_firebase_app ⟨true, none, InitOutcome.exc 3⟩ ⟨none, some FbErr.fileNotFound⟩ =
      ⟨none, ⟨none, some (FbErr.initExc 3)⟩, true⟩ ∧
    (∀ w2 : FbWorld,
      get_firebase_app w2 (get_firebase_app ⟨true, none, InitOutcome.exc 3⟩
          ⟨none, some FbErr.fileNotFound⟩).state =
        get_firebase_app w2 ⟨none, none⟩) :=
  init_failure_not_memoized ⟨true, none, InitOutcome.exc 3⟩
    ⟨none, some FbErr.fileNotFound⟩ 3 rfl rfl rfl rfl

/-- Claim C6: `firebase_get_vanne_etat` returns `None` (never raising)
whenever the store is unavailable or the remote read raises, and whenever the
read result is absent the dashboard's `etat_actuel` applies the fail-safe
default `false` (valve OFF). -/
theorem readFlag_failsafe_default (w : FbWorld) (rd : ReadOutcome) (s : FbState) :
    ((get_firebase_app w s).ret = none → (firebase_get_vanne_etat w rd s).1 = none) ∧
    (rd = ReadOutcome.exc → (firebase_get_vanne_etat w rd s).1 = none) ∧
    ((firebase_get_vanne_etat w rd s).1 = none → etat_actuel w rd s = false) := by
  refine ⟨?_, ?_, ?_⟩
  · intro h
    simp [firebase_get_vanne_etat, h]
  · intro h
    subst h
    cases hr : (get_firebase_app w s).ret <;> simp [firebase_get_vanne_etat, hr]
  · intro h
    simp [etat_actuel, h]

/-- Concrete instantiation of `readFlag_failsafe_default`: unavailable store,
raising read, and the OFF default. -/
theorem readFlag_failsafe_default_wit :
    (firebase_get_vanne_etat ⟨false, none, InitOutcome.exc 0⟩
        (ReadOutcome.val (some true)) ⟨none, none⟩).1 = none ∧
    (firebase_get_vanne_etat ⟨true, some ⟨1⟩, InitOutcome.ok ⟨1⟩⟩
        ReadOutcome.exc ⟨none, none⟩).1 = none ∧
    etat_actuel ⟨false, none, InitOutcome.exc 0⟩ (ReadOutcome.val (some true))
        ⟨none, none⟩ = false := by
  refine ⟨?_, ?_, ?_⟩
  · exact (readFlag_failsafe_default _ _ _).1 (by rfl)
  · exact (readFlag_failsafe_default _ _ _).2.1 rfl
  · exact (readFlag_failsafe_default _ _ _).2.2 ((readFlag_failsafe_default _ _ _).1 (by rfl))

/-- Claim C7: `firebase_set_vanne_etat` always returns a boolean (by type),
returning `false` — never raising — when the store is unavailable or the
remote write raises; it returns `true` only after an available store and a
successful write. -/
theorem writeFlag_no_raise (etat : Bool) (w : FbWorld) (wr : WriteOutcome)
    (s : FbState) :
    ((get_firebase_app w s).ret = none →
        (firebase_set_vanne_etat etat w wr s).1 = false) ∧
    (wr = WriteOutcome.exc → (firebase_set_vanne_etat etat w wr s).1 = false) ∧
    ((firebase_set_vanne_etat etat w wr s).1 = true →
        (get_firebase_app w s).ret ≠ none ∧ wr = WriteOutcome.ok) := by
  refine ⟨?_, ?_, ?_⟩
  · intro h
    simp [firebase_set_vanne_etat, h]
  · intro h
    subst h
    cases hr : (get_firebase_app w s).ret <;> simp [firebase_set_vanne_etat, hr]
  · intro h
    cases hr : (get_firebase_app w s).ret with
    | none => simp [firebase_set_vanne_etat, hr] at h
    | some a =>
      cases wr with
      | ok => exact ⟨by simp [hr], rfl⟩
      | exc => simp [firebase_set_vanne_etat, hr] at h

/-- Concrete instantiation of `writeFlag_no_raise`: unavailable store and
failing write both return `false`. -/
theorem writeFlag_no_raise_wit :
    (firebase_set_vanne_etat true ⟨false, none, InitOutcome.exc 0⟩
        WriteOutcome.ok ⟨none, none⟩).1 = false ∧
    (firebase_set_vanne_etat true ⟨true, some ⟨1⟩, InitOutcome.ok ⟨1⟩⟩
        WriteOutcome.exc ⟨none, none⟩).1 = false := by
  refine ⟨?_, ?_⟩
  · exact (writeFlag_no_raise true _ WriteOutcome.ok _).1 (by rfl)
  · exact (writeFlag_no_raise true _ WriteOutcome.exc _).2.1 rfl

/-! ## Claims about the geocoding suggestions -/

/-- Claim C3: for every query of length strictly less than 2 (the empty string
included) and every limit, the suggestion search returns the empty list and
issues no outbound network call. -/
theorem suggest_short_query_no_call (query : String) (lim : Nat)
    (net : String → Nat → GeoHttp) (h : query.length < 2) :
    search_address_suggestions query lim net = ([], false) := by
  unfold search_address_suggestions
  rw [if_pos (Or.inr h)]

/-- Concrete instantiation of `suggest_short_query_no_call` at a one-character
query against a network that would answer. -/
theorem suggest_short_query_no_call_wit :
    ("a".length < 2) ∧
    search_address_suggestions "a" 10 (fun _ _ => GeoHttp.ok []) = ([], false) :=
  ⟨by decide, suggest_short_query_no_call "a" 10 (fun _ _ => GeoHttp.ok []) (by decide)⟩

/-- A candidate missing a coordinate key (or holding a non-convertible value)
makes the whole loop raise: no suggestion list is produced. -/
theorem parse_candidates_none_of_bad (cands : List RawCandidate)
    (hbad : ∃ c ∈ cands, badCandidate c = true) :
    parse_candidates cands = none := by
  induction cands with
  | nil =>
    rcases hbad with ⟨c, hc, _⟩
    cases hc
  | cons c cs ih =>
    rcases hbad with ⟨c2, hc2, hb⟩
    rcases List.mem_cons.mp hc2 with rfl | ht
    · rcases c2 with ⟨dn, la, lo⟩
      rcases la with _ | ola
      · rfl
      · rcases ola with _ | lav
        · rfl
        · rcases lo with _ | olo
          · rfl
          · rcases olo with _ | lov
            · rfl
            · simp [badCandidate] at hb
    · have hcs := ih ⟨c2, ht, hb⟩
      rcases c with ⟨dn, la, lo⟩
      rcases la with _ | ola
      · rfl
      · rcases ola with _ | lav
        · rfl
        · rcases lo with _ | olo
          · rfl
          · rcases olo with _ | lov
            · rfl
            · simp only [parse_candidates, hcs]

/-- Claim C9: if the geocoding response contains any malformed candidate —
`lat` or `lon` absent, or not float-convertible — the search returns the empty
list even though the call was issued: the exception is handled per call, so
well-formed earlier candidates are discarded too. -/
theorem suggest_malformed_discards_all (query : String) (lim : Nat)
    (net : String → Nat → GeoHttp) (cands : List RawCandidate)
    (hq : 2 ≤ query.length) (hnet : net query lim = GeoHttp.ok cands)
    (hbad : ∃ c ∈ cands, badCandidate c = true) :
    search_address_suggestions query lim net = ([], true) := by
  have hcond : ¬(query = "" ∨ query.length < 2) := by
    rintro (rfl | hlt)
    · simp at hq
    · omega
  unfold search_address_suggestions
  rw [if_neg hcond, hnet]
  simp only [parse_candidates_none_of_bad cands hbad]

/-- Concrete instantiation of `suggest_malformed_discards_all`: a response
with one well-formed candidate followed by one lacking `lat`. -/
theorem suggest_malformed_discards_all_wit :
    (2 ≤ "Paris".length) ∧
    search_address_suggestions "Paris" 10
      (fun _ _ => GeoHttp.ok
        [⟨some "ok", some (some 48), some (some 2)⟩,
         ⟨some "broken", none, some (some 2)⟩]) = ([], true) :=
  ⟨by decide,
   suggest_malformed_discards_all "Paris" 10
     (fun _ _ => GeoHttp.ok
       [⟨some "ok", some (some 48), some (some 2)⟩,
        ⟨some "broken", none, some (some 2)⟩])
     [⟨some "ok", some (some 48), some (some 2)⟩,
      ⟨some "broken", none, some (some 2)⟩]
     (by decide) rfl
     ⟨⟨some "broken", none, some (some 2)⟩, by decide, by decide⟩⟩

/-! ## Claims about the weather fetch -/

/-- Claim C4: every failure mode of `fetch_open_meteo_data` — timeout, HTTP
error with status 400 distinguished from other statuses, connection error,
a response missing the `"hourly"` shape, a response with either requested
variable absent or empty (the partial-data case), and any other exception —
yields `None` to the caller instead of a propagated exception, each mode with
its own distinct diagnostic; the caller receives data only from a successful
well-shaped response. -/
theorem fetch_failure_taxonomy :
    fetch_open_meteo_data HttpOutcome.timeout = FetchResult.errTimeout ∧
    fetch_open_meteo_data (HttpOutcome.httpError 400) = FetchResult.errBadRequest ∧
    (∀ code : Nat, code ≠ 400 →
      fetch_open_meteo_data (HttpOutcome.httpError code) = FetchResult.errHttp code) ∧
    fetch_open_meteo_data HttpOutcome.connError = FetchResult.errConn ∧
    (∀ c : Nat,
      fetch_open_meteo_data (HttpOutcome.otherExc c) = FetchResult.errUnknown c) ∧
    (∀ b : MeteoBody, b.hourly = none →
      fetch_open_meteo_data (HttpOutcome.ok b) = FetchResult.errMalformed) ∧
    (∀ (b : MeteoBody) (hb : HourlyBlock), b.hourly = some hb →
      (truthy hb.relative_humidity_2m = false ∨
        truthy hb.soil_moisture_0_to_1cm = false) →
      fetch_open_meteo_data (HttpOutcome.ok b) = FetchResult.errPartial) ∧
    (∀ (net : HttpOutcome) (b : MeteoBody),
      (fetch_open_meteo_data net).toCaller = some b → net = HttpOutcome.ok b) ∧
    List.Pairwise Ne
      [FetchResult.errTimeout, FetchResult.errBadRequest, FetchResult.errHttp 500,
       FetchResult.errConn, FetchResult.errMalformed, FetchResult.errPartial,
       FetchResult.errUnknown 0] := by
  refine ⟨rfl, rfl, ?_, rfl, fun c => rfl, ?_, ?_, ?_, by decide⟩
  · intro code hc
    simp [fetch_open_meteo_data, hc]
  · intro b hb
    simp [fetch_open_meteo_data, hb]
  · intro b hb hhb hfalse
    rcases hfalse with hf | hf <;>
      simp [fetch_open_meteo_data, hhb, hf]
  · intro net b hb
    cases net with
    | timeout => simp [fetch_open_meteo_data, FetchResult.toCaller] at hb
    | httpError code =>
      by_cases hc : code = 400 <;>
        simp [fetch_open_meteo_data, hc, FetchResult.toCaller] at hb
    | connError => simp [fetch_open_meteo_data, FetchResult.toCaller] at hb
    | otherExc c => simp [fetch_open_meteo_data, FetchResult.toCaller] at hb
    | ok body =>
      cases hh : body.hourly with
      | none => simp [fetch_open_meteo_data, hh, FetchResult.toCaller] at hb
      | some blk =>
        by_cases ht : (truthy blk.relative_humidity_2m &&
            truthy blk.soil_moisture_0_to_1cm) = true
        · simp only [fetch_open_meteo_data, hh, ht, if_true,
            FetchResult.toCaller, Option.some.injEq] at hb
          rw [hb]
        · simp [fetch_open_meteo_data, hh, ht, FetchResult.toCaller] at hb

/-- Concrete instantiation of `fetch_failure_taxonomy`: a 500 status, an
unknown exception, a body without `"hourly"`, a body with an absent variable,
and the only way the caller gets data. -/
theorem fetch_failure_taxonomy_wit :
    fetch_open_meteo_data (HttpOutcome.httpError 500) = FetchResult.errHttp 500 ∧
    fetch_open_meteo_data (HttpOutcome.otherExc 7) = FetchResult.errUnknown 7 ∧
    fetch_open_meteo_data (HttpOutcome.ok ⟨none⟩) = FetchResult.errMalformed ∧
    fetch_open_meteo_data
      (HttpOutcome.ok ⟨some ⟨some [some 0], none, some [some 1]⟩⟩) =
        FetchResult.errPartial ∧
    HttpOutcome.ok (⟨some ⟨some [some 0], some [some 50], some [some 1]⟩⟩ : MeteoBody) =
      HttpOutcome.ok ⟨some ⟨some [some 0], some [some 50], some [some 1]⟩⟩ :=
  ⟨fetch_failure_taxonomy.2.2.1 500 (by decide),
   fetch_failure_taxonomy.2.2.2.2.1 7,
   fetch_failure_taxonomy.2.2.2.2.2.1 ⟨none⟩ rfl,
   fetch_failure_taxonomy.2.2.2.2.2.2.1 ⟨some ⟨some [some 0], none, some [some 1]⟩⟩
     ⟨some [some 0], none, some [some 1]⟩ rfl (Or.inl rfl),
   fetch_failure_taxonomy.2.2.2.2.2.2.2.1
     (HttpOutcome.ok ⟨some ⟨some [some 0], some [some 50], some [some 1]⟩⟩)
     ⟨some ⟨some [some 0], some [some 50], some [some 1]⟩⟩ rfl⟩

/-! ## Claims about normalization -/

/-- The function `dropna` keeps every row when all three columns are null-free, preserving
order. -/
theorem dropna_all_some (ts : List Int) :
    ∀ (ha hs : List Rat),
      dropna ((ts.map some).zip ((ha.map some).zip (hs.map some))) =
        ts.zip (ha.zip hs) := by
  induction ts with
  | nil => intro ha hs; rfl
  | cons t ts2 ih =>
    intro ha hs
    cases ha with
    | nil => rfl
    | cons a ha2 =>
      cases hs with
      | nil => rfl
      | cons m hs2 =>
        exact congrArg (List.cons (t, a, m)) (ih ha2 hs2)

/-- The function `dropna` keeps no row when every timestamp is null. -/
theorem dropna_time_none (ts : List (Option Int)) (h : ∀ x ∈ ts, x = none) :
    ∀ (ha hs : List (Option Rat)), dropna (ts.zip (ha.zip hs)) = [] := by
  induction ts with
  | nil => intro ha hs; rfl
  | cons t ts2 ih =>
    intro ha hs
    have ht : t = none := h t (by simp)
    subst ht
    have htail : ∀ x ∈ ts2, x = none := fun x hx => h x (by simp [hx])
    cases ha with
    | nil => rfl
    | cons a ha2 =>
      cases hs with
      | nil => rfl
      | cons m hs2 =>
        simp only [List.zip_cons_cons]
        rcases a with _ | av <;> rcases m with _ | mv <;>
          exact ih htail ha2 hs2

/-- Claim C1 fails as stated: a raw record with non-empty, equal-length,
null-free arrays whose timestamps are out of order is normalized to a series
that is not ascending by timestamp — the code never sorts, it preserves the
input's positional order. -/
theorem normalize_ascending_cex :
    process_meteo_data (some ⟨some ⟨some [some 1, some 0],
        some [some 50, some 60], some [some 3, some 4]⟩⟩) =
      ProcessResult.ok [(1, 50, 3), (0, 60, 4)] ∧
    rowsSortedAsc [((1 : Int), (50 : Rat), (3 : Rat)), (0, 60, 4)] = false := by
  constructor
  · rfl
  · rfl

/-- Claim C1 (amended): for every raw record whose three parallel arrays are
non-empty, of equal length, and null-free, `process_meteo_data` returns a
series with exactly as many rows as the input arrays have entries, whose rows
carry the input values in the input's positional order (hence ascending by
timestamp whenever the input time array is ascending), and — by the type of
the rows — with no null field. -/
theorem normalize_wellformed_amended (ts : List Int) (ha hs : List Rat)
    (hne : ts ≠ []) (l1 : ts.length = ha.length) (l2 : ha.length = hs.length) :
    process_meteo_data (some ⟨some ⟨some (ts.map some), some (ha.map some),
        some (hs.map some)⟩⟩) = ProcessResult.ok (ts.zip (ha.zip hs)) ∧
    (ts.zip (ha.zip hs)).length = ts.length ∧
    (ts.zip (ha.zip hs)).map Prod.fst = ts ∧
    (ascChain ts = true → rowsSortedAsc (ts.zip (ha.zip hs)) = true) := by
  have hlen : (ts.zip (ha.zip hs)).length = ts.length := by
    rw [List.length_zip, List.length_zip]
    omega
  have hmap : (ts.zip (ha.zip hs)).map Prod.fst = ts := by
    apply List.map_fst_zip
    rw [List.length_zip]
    omega
  refine ⟨?_, hlen, hmap, ?_⟩
  · rcases ts with _ | ⟨t, ts2⟩
    · exact absurd rfl hne
    rcases ha with _ | ⟨a, ha2⟩
    · simp at l1
    rcases hs with _ | ⟨m, hs2⟩
    · simp at l2
    have hc2 : ((t :: ts2).map some).length = ((a :: ha2).map some).length ∧
        ((a :: ha2).map some).length = ((m :: hs2).map some).length := by
      simp only [List.length_map]
      exact ⟨l1, l2⟩
    simp only [process_meteo_data, Option.getD_some]
    rw [if_neg (by simp), if_pos hc2, dropna_all_some]
    rw [if_neg (by simp [List.zip_cons_cons])]
  · intro hasc
    unfold rowsSortedAsc
    rw [hmap]
    exact hasc

/-- Concrete instantiation of `normalize_wellformed_amended` on a two-row
record. -/
theorem normalize_wellformed_amended_wit :
    ([(0 : Int), 1] ≠ [] ∧
      ([(0 : Int), 1]).length = ([(50 : Rat), 60]).length ∧
      ([(50 : Rat), 60]).length = ([(3 : Rat), 4]).length) ∧
    process_meteo_data (some ⟨some ⟨some ([(0 : Int), 1].map some),
        some ([(50 : Rat), 60].map some), some ([(3 : Rat), 4].map some)⟩⟩) =
      ProcessResult.ok ([(0 : Int), 1].zip ([(50 : Rat), 60].zip [(3 : Rat), 4])) :=
  ⟨⟨by decide, by decide, by decide⟩,
   (normalize_wellformed_amended [0, 1] [50, 60] [3, 4]
     (by decide) (by decide) (by decide)).1⟩

/-- Claim C2 fails as stated: on a record with mismatched non-empty array
lengths, the `pd.DataFrame` constructor raises, the exception is caught by the
catch-all handler, and the emitted diagnostic is the generic processing error,
not the "no valid data" warning. -/
theorem normalize_mismatch_cex :
    process_meteo_data (some ⟨some ⟨some [some 0, some 1], some [some 50],
        some [some 7]⟩⟩) = ProcessResult.errProcessing ∧
    ProcessResult.errProcessing ≠ ProcessResult.errNoValid := by
  constructor
  · rfl
  · decide

/-- Claim C2 (amended): `process_meteo_data` returns `None` and no exception
reaches its caller in both failure families, but with different diagnostics:
mismatched non-empty array lengths surface as the caught-exception processing
error (the DataFrame constructor raises `ValueError`), while equal-length
records whose fields are all null surface as the "no valid data" warning. -/
theorem normalize_failure_modes (ts : List (Option Int))
    (ha hs : List (Option Rat)) :
    (ts ≠ [] → ha ≠ [] → hs ≠ [] →
      ¬(ts.length = ha.length ∧ ha.length = hs.length) →
      process_meteo_data (some ⟨some ⟨some ts, some ha, some hs⟩⟩) =
        ProcessResult.errProcessing) ∧
    (ts ≠ [] → ts.length = ha.length → ha.length = hs.length →
      (∀ x ∈ ts, x = none) → (∀ x ∈ ha, x = none) → (∀ x ∈ hs, x = none) →
      process_meteo_data (some ⟨some ⟨some ts, some ha, some hs⟩⟩) =
        ProcessResult.errNoValid) := by
  constructor
  · intro h1 h2 h3 hmm
    have c1 : (ts.isEmpty || ha.isEmpty || hs.isEmpty) = false := by
      simp [h1, h2, h3]
    simp only [process_meteo_data, Option.getD_some, c1, Bool.false_eq_true,
      if_false]
    rw [if_neg hmm]
  · intro h1 l1 l2 hn1 _ _
    have h2 : ha ≠ [] := by
      intro he
      rw [he] at l1
      simp at l1
      exact h1 l1
    have h3 : hs ≠ [] := by
      intro he
      rw [he] at l2
      simp at l2
      exact h2 l2
    have c1 : (ts.isEmpty || ha.isEmpty || hs.isEmpty) = false := by
      simp [h1, h2, h3]
    simp only [process_meteo_data, Option.getD_some, c1, Bool.false_eq_true,
      if_false]
    rw [if_pos ⟨l1, l2⟩, dropna_time_none ts hn1 ha hs]
    rfl

/-- Concrete instantiation of `normalize_failure_modes`: a mismatched-length
record and an all-null record. -/
theorem normalize_failure_modes_wit :
    process_meteo_data (some ⟨some ⟨some [some 0, some 1], some [some 50],
        some [some 7]⟩⟩) = ProcessResult.errProcessing ∧
    process_meteo_data (some ⟨some ⟨some [none, none], some [none, none],
        some [none, none]⟩⟩) = ProcessResult.errNoValid :=
  ⟨(normalize_failure_modes [some 0, some 1] [some 50] [some 7]).1
     (by decide) (by decide) (by decide) (by decide),
   (normalize_failure_modes [none, none] [none, none] [none, none]).2
     (by decide) (by decide) (by decide) (by decide) (by decide) (by decide)⟩

/-- Claim C8: `process_meteo_data` is deterministic — a pure function of its
input.  The embedding required no state beyond the argument: the source
function reads nothing mutable (its Streamlit messages are write-only
outputs), so two calls on the same raw record yield identical output. -/
theorem normalize_deterministic (x y : Option MeteoBody) (h : x = y) :
    process_meteo_data x = process_meteo_data y := by
  rw [h]

/-- Concrete instantiation of `normalize_deterministic`: the two calls on a
concrete record agree. -/
theorem normalize_deterministic_wit :
    process_meteo_data (some ⟨some ⟨some [some 0], some [some 50],
        some [some 7]⟩⟩) =
      process_meteo_data (some ⟨some ⟨some [some 0], some [some 50],
        some [some 7]⟩⟩) :=
  normalize_deterministic
    (some ⟨some ⟨some [some 0], some [some 50], some [some 7]⟩⟩)
    (some ⟨some ⟨some [some 0], some [some 50], some [some 7]⟩⟩) rfl
